import Mathlib

/-!
Verification of the provisioning-state-transition driver of the
terraform-provider-ironic repository (ironic/workflow.go).

The file embeds, as executable Lean definitions, the two workflow
implementations found in ironic/workflow.go:

* the legacy `provisionStateWorkflow` (run / next / toManageable /
  toAvailable / toActive / toDeleted / toClean / toInspect / maybeRetry /
  buildProvisionStateOpts / changeProvisionState), and
* the newer `provisionWorkflow` (stateTransitions / isValidTransition /
  isTerminalFailureState / isTransientState / checkCompletion /
  takeNextAction / determineNextTarget / changeProvisionState / execute).

Go string-typed provision states and targets are embedded as inductive
types; the aliased target constants of the source (TargetUnmanage =
TargetManage, TargetAvailable = TargetProvide) are resolved to their
underlying values, exactly as the Go type-alias constants do.
-/

/-- Provision states of a node (`nodes.ProvisionState` / `ProvisionState`
constants in workflow.go).  `unknown` stands for any string outside the
set of named states; every Go `switch` on a state has a `default`
branch, which `unknown` exercises. -/
inductive State where
  | enroll
  | verifying
  | manageable
  | inspecting
  | inspectWait
  | inspectFail
  | cleaning
  | cleanWait
  | cleanFail
  | available
  | active
  | deploying
  | deployWait
  | deployFail
  | deleting
  | deleteFail
  | rescuing
  | rescued
  | rescueFail
  | unrescuing
  | adopting
  | adoptFail
  | error
  | unknown
deriving DecidableEq, Repr

/-- Transition actions (`nodes.TargetProvisionState` values).  The source
aliases TargetUnmanage to TargetManage and TargetAvailable to
TargetProvide, so those names denote `manage` and `provide` here. -/
inductive Target where
  | manage
  | inspect
  | clean
  | provide
  | active
  | deleted
  | rescue
  | unrescue
  | adopt
  | abort
  | rebuild
deriving DecidableEq, Repr

/-- A legal state transition (struct StateTransition in workflow.go). -/
structure StateTransition where
  src : State
  tgt : Target
  dst : State
deriving DecidableEq, Repr

/-- The transition table `stateTransitions` of workflow.go (lines 487-532),
with the alias constants resolved: `TargetUnmanage` is `manage` and
`TargetAvailable` is `provide`. -/
def stateTransitions : List StateTransition :=
  [ -- From enroll
    ⟨.enroll, .manage, .manageable⟩,
    -- From manageable
    ⟨.manageable, .manage, .enroll⟩,
    ⟨.manageable, .inspect, .inspecting⟩,
    ⟨.manageable, .clean, .cleaning⟩,
    ⟨.manageable, .adopt, .adopting⟩,
    -- From inspecting
    ⟨.inspecting, .manage, .manageable⟩,
    -- From cleaning
    ⟨.cleaning, .provide, .available⟩,
    ⟨.cleaning, .abort, .manageable⟩,
    ⟨.cleaning, .clean, .cleaning⟩,
    -- From available
    ⟨.available, .active, .deploying⟩,
    -- From deploying
    ⟨.deploying, .active, .active⟩,
    ⟨.deployFail, .deleted, .deleting⟩,
    ⟨.deploying, .abort, .deployFail⟩,
    -- From active
    ⟨.active, .deleted, .deleting⟩,
    ⟨.active, .rebuild, .deploying⟩,
    ⟨.active, .rescue, .rescuing⟩,
    -- From deleting
    ⟨.deleting, .provide, .available⟩,
    -- From rescuing
    ⟨.rescuing, .rescue, .rescued⟩,
    -- From rescued
    ⟨.rescued, .unrescue, .unrescuing⟩,
    -- From unrescuing
    ⟨.unrescuing, .active, .active⟩,
    -- From adopting
    ⟨.adopting, .manage, .manageable⟩ ]

/-- `isValidTransition` of workflow.go: some table entry matches the
(from, target) pair. -/
def isValidTransition (from_ : State) (target : Target) : Bool :=
  stateTransitions.any fun tr => tr.src = from_ ∧ tr.tgt = target

/-- `getValidTransitions` of workflow.go. -/
def getValidTransitions (from_ : State) : List StateTransition :=
  stateTransitions.filter fun tr => tr.src = from_

/-- `getExpectedState` of workflow.go: the To of the first matching entry. -/
def getExpectedState (from_ : State) (target : Target) : Option State :=
  (stateTransitions.find? fun tr => tr.src = from_ ∧ tr.tgt = target).map
    fun tr => tr.dst

/-- `isTerminalFailureState` of workflow.go (lines 566-582).  Note that
`error` is not in this list. -/
def isTerminalFailureState (s : State) : Bool :=
  [State.inspectFail, .cleanFail, .deployFail, .deleteFail,
    .rescueFail, .adoptFail].contains s

/-- `isTransientState` of workflow.go (lines 585-603). -/
def isTransientState (s : State) : Bool :=
  [State.inspecting, .cleaning, .deploying, .deleting,
    .rescuing, .unrescuing, .adopting, .cleanWait].contains s

/-- `determineNextTarget` of workflow.go (lines 786-839): the target itself
when the table allows it directly, otherwise the hard-coded first hop of
the multi-step decision table; `none` models the empty-string return. -/
def determineNextTarget (goal : Target) (s : State) : Option Target :=
  if isValidTransition s goal then some goal
  else
    match goal with
    | .active =>
        if s = .enroll then some .manage
        else if s = .manageable then some .provide
        else if s = .available then some .active
        else none
    | .provide =>
        if s = .enroll then some .manage
        else if s = .manageable then some .provide
        else none
    | .deleted =>
        if s = .active then some .deleted
        else none
    | .inspect =>
        if s = .enroll then some .manage
        else if s = .manageable then some .inspect
        else if s = .available then some .manage
        else none
    | .clean =>
        if s = .enroll then some .manage
        else if s = .manageable then some .clean
        else none
    | _ => none

/-- Config-drive payload content; the driver threads it through without
inspecting it, so its structure is irrelevant and it is embedded as Nat. -/
abbrev ConfigDrive : Type := Nat

/-- A deploy step (nodes.DeployStep); content never inspected by the driver. -/
structure DeployStep where
  val : Nat
deriving DecidableEq, Repr

/-- A clean step (nodes.CleanStep); content never inspected by the driver. -/
structure CleanStep where
  val : Nat
deriving DecidableEq, Repr

/-- Errors produced by the two workflows.  Each constructor stands for one
`fmt.Errorf` / `errors.New` site of workflow.go; the formatted text is
dropped, the data it interpolates is kept. -/
inductive Err where
  /-- legacy reloadNode failure propagated from `next` (lines 86-88) -/
  | fetchFailed
  /-- `errors.New(state)` in `maybeRetry` when the retry budget is zero -/
  | stuck (s : State)
  /-- "cannot go from state s to state manageable" -/
  | cannotManage (s : State)
  /-- "could not clean node, node is currently s" -/
  | cannotClean (s : State)
  /-- "could not inspect node, node is currently s" -/
  | cannotInspect (s : State)
  /-- "cannot delete node in state s" -/
  | cannotDelete (s : State)
  /-- "failed to change provision state ... to t" (both workflows) -/
  | requestFailed (t : Target)
  /-- "unknown target state t" / "unknown target: t" -/
  | unknownTarget (t : Target)
  /-- "node ... in terminal failure state: s" (checkCompletion) -/
  | terminalFailure (s : State)
  /-- "no valid transition from state s for target t" (takeNextAction) -/
  | noValidTransition (s : State) (t : Target)
deriving DecidableEq, Repr

/-- Outcome of one invocation of `provisionWorkflow.execute`. -/
inductive RunErr where
  /-- "context cancelled" -/
  | cancelled
  /-- "timeout waiting for provision state change after 30m" -/
  | timedOut
  /-- an error returned through `checkCompletion` -/
  | completion (e : Err)
  /-- "workflow failed in terminal state s" wrapping an action error -/
  | terminalAction (s : State) (e : Err)
  /-- "workflow failed after 1000 attempts" -/
  | attemptsExhausted
deriving DecidableEq, Repr

/-- Result of `provisionWorkflow.execute`: nil or an error. -/
inductive RunResult where
  | ok
  | err (e : RunErr)
deriving DecidableEq, Repr

/-- What one iteration of the execute select observes: context cancellation,
the 30-minute timer firing, a failed `nodes.Get` (fetch error), or a
fetched provision state `s` together with the success/failure of the
`ChangeProvisionState` call should one be issued this tick. -/
inductive Tick where
  | cancelled
  | timedOut
  | fetchFail
  | observed (s : State) (adapterOk : Bool)
deriving DecidableEq, Repr

/-- `checkCompletion` of workflow.go (lines 729-758): terminal failures are
done-with-error; otherwise the goal-state test of the target decides, with
unlisted targets done-with-unknown-target-error. -/
def checkCompletion (goal : Target) (s : State) : Bool × Option Err :=
  if isTerminalFailureState s then (true, some (.terminalFailure s))
  else
    match goal with
    | .manage => (s = .manageable, none)
    | .inspect => (s = .manageable, none)
    | .clean => (s = .available, none)
    | .provide => (s = .available, none)
    | .active => (s = .active, none)
    | .deleted => (s = .available ∨ s = .manageable, none)
    | .rescue => (s = .rescued, none)
    | .unrescue => (s = .active, none)
    | .adopt => (s = .manageable, none)
    | _ => (true, some (.unknownTarget goal))

/-- `takeNextAction` of workflow.go (lines 761-783) together with the
request of `provisionWorkflow.changeProvisionState` (lines 842-873):
returns the error, if any, and the transition request issued this tick,
if any.  A transient state waits; an empty planner answer is the
no-valid-transition error; otherwise the action is issued and the
adapter failure, if any, is wrapped as a request failure. -/
def takeNextAction (goal : Target) (s : State) (adapterOk : Bool) :
    Option Err × Option Target :=
  if isTransientState s then (none, none)
  else
    match determineNextTarget goal s with
    | none => (some (.noValidTransition s goal), none)
    | some a => if adapterOk then (none, some a) else (some (.requestFailed a), some a)

/-- One iteration of the execute poll loop (workflow.go lines 676-722):
the returned RunResult, if any (none means the loop keeps going), and the
transition request issued, if any. -/
def execStep (goal : Target) (tk : Tick) : Option RunResult × Option Target :=
  match tk with
  | .cancelled => (some (.err .cancelled), none)
  | .timedOut => (some (.err .timedOut), none)
  | .fetchFail => (none, none)
  | .observed s adapterOk =>
      match checkCompletion goal s with
      | (true, none) => (some .ok, none)
      | (true, some e) => (some (.err (.completion e)), none)
      | (false, _) =>
          match takeNextAction goal s adapterOk with
          | (none, act) => (none, act)
          | (some e, act) =>
              if isTerminalFailureState s then
                (some (.err (.terminalAction s e)), act)
              else (none, act)

/-- The bounded attempt loop of execute: at most `fuel` iterations starting at
tick index `i`; exhausting the budget yields the attempts-exhausted error
(workflow.go line 725).  Also accumulates every transition request issued. -/
def execLoop (goal : Target) (env : Nat → Tick) : Nat → Nat → RunResult × List Target
  | _, 0 => (.err .attemptsExhausted, [])
  | i, fuel + 1 =>
      match execStep goal (env i) with
      | (some r, act) => (r, act.toList)
      | (none, act) =>
          let rest := execLoop goal env (i + 1) fuel
          (rest.1, act.toList ++ rest.2)

/-- `provisionWorkflow.execute` (workflow.go lines 665-726): 1000 attempts,
each driven by the environment tick. -/
def executeM (goal : Target) (env : Nat → Tick) : RunResult × List Target :=
  execLoop goal env 0 1000

/-- Number of loop iterations execute actually performs on `env`. -/
def execTicks (goal : Target) (env : Nat → Tick) : Nat → Nat → Nat
  | _, 0 => 0
  | i, fuel + 1 =>
      match (execStep goal (env i)).1 with
      | some _ => 1
      | none => 1 + execTicks goal env (i + 1) fuel

/-- One response of the remote API to a ChangeProvisionState call: success,
HTTP 409 conflict, or any other error. -/
inductive ApiResp where
  | ok
  | conflict
  | reject
deriving DecidableEq, Repr

/-- The attempt loop of the legacy `changeProvisionState` (workflow.go lines
379-396): up to 5 attempts; a conflict sleeps the current interval and
doubles it; any other error falls through to the next attempt with no
sleep; success returns immediately.  `resp j` is the API answer to the
j-th attempt.  Returns (success, recorded sleeps in seconds, API calls
made). -/
def cpsLoop (resp : Nat → ApiResp) : Nat → Nat → Nat → List Nat → Nat → Bool × List Nat × Nat
  | _, 0, _, sleeps, calls => (false, sleeps.reverse, calls)
  | j, fuel + 1, interval, sleeps, calls =>
      match resp j with
      | .ok => (true, sleeps.reverse, calls + 1)
      | .conflict => cpsLoop resp (j + 1) fuel (interval * 2) (interval :: sleeps) (calls + 1)
      | .reject => cpsLoop resp (j + 1) fuel interval sleeps (calls + 1)

/-- The legacy `changeProvisionState` attempt loop entered with 5 attempts
and a 5-second starting interval (workflow.go lines 379-380). -/
def changeProvisionStateAttempts (resp : Nat → ApiResp) : Bool × List Nat × Nat :=
  cpsLoop resp 0 5 5 [] 0

/-- `nodes.ProvisionStateOpts` as populated by workflow.go: the target plus
the optional payload fields.  `none` models a Go nil slice / nil any. -/
structure ProvisionStateOpts where
  target : Target
  configDrive : Option ConfigDrive := none
  deploySteps : Option (List DeployStep) := none
  cleanSteps : Option (List CleanStep) := none
deriving DecidableEq, Repr

/-- Per-invocation state of the legacy `provisionStateWorkflow` (struct at
workflow.go lines 18-32).  `node` is the last reloaded provision state,
`ncalls` counts changeProvisionState invocations so the environment can
answer each one, `nnested` counts nested ChangeProvisionStateToTarget
invocations made by toClean/toInspect. -/
structure LegacyWF where
  target : Target
  node : State
  retryNumber : Nat
  operationStarted : Bool
  wait : Nat
  configDrive : Option ConfigDrive
  deploySteps : Option (List DeployStep)
  cleanSteps : Option (List CleanStep)
  ncalls : Nat
  nnested : Nat
deriving DecidableEq, Repr

/-- `maxRetryNumber` (workflow.go line 15). -/
def maxRetryNumber : Nat := 3

/-- The workflow value built by the legacy `ChangeProvisionStateToTarget`
(workflow.go lines 46-55): 5-second wait, full retry budget; the node
field is only populated by the first reloadNode, so it starts unknown. -/
def initialWorkflow (t : Target) (cd : Option ConfigDrive)
    (ds : Option (List DeployStep)) (cs : Option (List CleanStep)) : LegacyWF :=
  { target := t, node := .unknown, retryNumber := maxRetryNumber,
    operationStarted := false, wait := 5,
    configDrive := cd, deploySteps := ds, cleanSteps := cs,
    ncalls := 0, nnested := 0 }

/-- Environment of one legacy run: `fetch i` is the i-th reloadNode result
(none = fetch error), `api k` is the response sequence the API gives to
the k-th changeProvisionState invocation, and `nested k` is the outcome of
the k-th nested ChangeProvisionStateToTarget(TargetManage) invocation that
toClean/toInspect make (that call runs a whole inner workflow; it is
abstracted by its resulting error, which no claim exercises). -/
structure LegacyEnv where
  fetch : Nat → Option State
  api : Nat → Nat → ApiResp
  nested : Nat → Option Err

/-- Result of one legacy step: updated workflow, transition requests issued
(one entry per changeProvisionState invocation, carrying its target), the
returned done flag and error. -/
structure LStep where
  wf : LegacyWF
  issued : List Target
  done : Bool
  err : Option Err
deriving Repr

/-- Legacy `buildProvisionStateOpts` (workflow.go lines 343-367): the
active action carries config drive and, when supplied, deploy steps; the
clean action carries the supplied clean steps or an empty list; every
other action only sets the target. -/
def buildProvisionStateOpts (w : LegacyWF) (t : Target) : ProvisionStateOpts :=
  let opts : ProvisionStateOpts := { target := t }
  let opts :=
    if t = .active then
      { opts with
        configDrive := w.configDrive,
        deploySteps := if w.deploySteps.isSome then w.deploySteps else opts.deploySteps }
    else opts
  if t = .clean then
    { opts with
      cleanSteps :=
        match w.cleanSteps with
        | some l => some l
        | none => some [] }
  else opts

/-- Legacy `changeProvisionState` (workflow.go lines 370-403): builds the
opts, short-circuits a clean request with no clean steps, then runs the
bounded attempt loop; success is (true, nil), exhaustion is (false, error). -/
def changeProvisionStateL (env : LegacyEnv) (w : LegacyWF) (t : Target) : LStep :=
  let opts := buildProvisionStateOpts w t
  if t = .clean ∧ (opts.cleanSteps.getD []).length = 0 then
    ⟨w, [], true, none⟩
  else
    let ok := (changeProvisionStateAttempts (env.api w.ncalls)).1
    let w' := { w with ncalls := w.ncalls + 1 }
    if ok then ⟨w', [t], true, none⟩
    else ⟨w', [t], false, some (.requestFailed t)⟩

/-- `maybeRetry` (workflow.go lines 114-128): budget zero is fatal with the
name of the state as the error; otherwise decrement the budget, clear the
operation flag, and issue `deleted` from "deploy failed" or `manage` from
any other retryable failure state. -/
def maybeRetry (env : LegacyEnv) (w : LegacyWF) : LStep :=
  if w.retryNumber = 0 then ⟨w, [], true, some (.stuck w.node)⟩
  else
    let w' := { w with retryNumber := w.retryNumber - 1, operationStarted := false }
    if w.node = .deployFail then changeProvisionStateL env w' .deleted
    else changeProvisionStateL env w' .manage

/-- `toManageable` (workflow.go lines 131-152). -/
def toManageable (env : LegacyEnv) (w : LegacyWF) : LStep :=
  match w.node with
  | .manageable => ⟨w, [], true, none⟩
  | .enroll | .available => changeProvisionStateL env w .manage
  | .adoptFail | .cleanFail | .inspectFail => maybeRetry env w
  | .verifying => ⟨w, [], false, none⟩
  | s => ⟨w, [], true, some (.cannotManage s)⟩

/-- `toAvailable` (workflow.go lines 229-265); the default branch runs
toManageable, keeps its effects, propagates only its error, and reports
not-done on success. -/
def toAvailable (env : LegacyEnv) (w : LegacyWF) : LStep :=
  match w.node with
  | .available => ⟨w, [], true, none⟩
  | .cleaning | .cleanWait => ⟨w, [], false, none⟩
  | .manageable => changeProvisionStateL env w .provide
  | .deployFail => maybeRetry env w
  | _ =>
      let r := toManageable env w
      match r.err with
      | some e => ⟨r.wf, r.issued, true, some e⟩
      | none => ⟨r.wf, r.issued, false, none⟩

/-- `toActive` (workflow.go lines 268-300); deploying from available also
raises the poll interval to 30 seconds. -/
def toActive (env : LegacyEnv) (w : LegacyWF) : LStep :=
  match w.node with
  | .active => ⟨w, [], true, none⟩
  | .deploying | .deployWait => ⟨w, [], false, none⟩
  | .available => changeProvisionStateL env { w with wait := 30 } .active
  | _ =>
      let r := toAvailable env w
      match r.err with
      | some e => ⟨r.wf, r.issued, true, some e⟩
      | none => ⟨r.wf, r.issued, false, none⟩

/-- `toDeleted` (workflow.go lines 303-340). -/
def toDeleted (env : LegacyEnv) (w : LegacyWF) : LStep :=
  match w.node with
  | .manageable | .available | .enroll => ⟨w, [], true, none⟩
  | .cleaning | .deleting => ⟨w, [], false, none⟩
  | .active | .deployWait | .error => changeProvisionStateL env w .deleted
  | .deployFail => maybeRetry env w
  | .inspectFail | .cleanFail =>
      let r := toManageable env w
      match r.err with
      | some e => ⟨r.wf, r.issued, true, some e⟩
      | none => ⟨r.wf, r.issued, false, none⟩
  | s => ⟨w, [], true, some (.cannotDelete s)⟩

/-- `toClean` (workflow.go lines 155-189).  The nested top-level
ChangeProvisionStateToTarget(TargetManage) call made before the first
clean request is represented by the `nested` outcome of the environment; the
transition requests of that inner run are not recorded here. -/
def toClean (env : LegacyEnv) (w : LegacyWF) : LStep :=
  if w.operationStarted = false then
    let nestedErr := if w.node ≠ .manageable then env.nested w.nnested else none
    let w := if w.node ≠ .manageable then { w with nnested := w.nnested + 1 } else w
    match nestedErr with
    | some e => ⟨w, [], true, some e⟩
    | none =>
        let r := changeProvisionStateL env w .clean
        match r.err with
        | some e => ⟨r.wf, r.issued, true, some e⟩
        | none => ⟨{ r.wf with operationStarted := true }, r.issued, false, none⟩
  else
    match w.node with
    | .manageable => ⟨w, [], true, none⟩
    | .cleaning | .cleanWait => ⟨w, [], false, none⟩
    | .cleanFail => maybeRetry env w
    | s => ⟨w, [], true, some (.cannotClean s)⟩

/-- `toInspect` (workflow.go lines 192-226); same shape as toClean. -/
def toInspect (env : LegacyEnv) (w : LegacyWF) : LStep :=
  if w.operationStarted = false then
    let nestedErr := if w.node ≠ .manageable then env.nested w.nnested else none
    let w := if w.node ≠ .manageable then { w with nnested := w.nnested + 1 } else w
    match nestedErr with
    | some e => ⟨w, [], true, some e⟩
    | none =>
        let r := changeProvisionStateL env w .inspect
        match r.err with
        | some e => ⟨r.wf, r.issued, true, some e⟩
        | none => ⟨{ r.wf with operationStarted := true }, r.issued, false, none⟩
  else
    match w.node with
    | .manageable => ⟨w, [], true, none⟩
    | .inspecting | .inspectWait => ⟨w, [], false, none⟩
    | .inspectFail => maybeRetry env w
    | s => ⟨w, [], true, some (.cannotInspect s)⟩

/-- Legacy `next` (workflow.go lines 84-112): reload the node (a failed
reload returns (true, err) and thus aborts the run), then dispatch on the
target. -/
def nextL (env : LegacyEnv) (w : LegacyWF) (i : Nat) : LStep :=
  match env.fetch i with
  | none => ⟨w, [], true, some .fetchFailed⟩
  | some s =>
      let w := { w with node := s }
      match w.target with
      | .manage => toManageable env w
      | .provide => toAvailable env w
      | .active => toActive env w
      | .deleted => toDeleted env w
      | .clean => toClean env w
      | .inspect => toInspect env w
      | t => ⟨w, [], true, some (.unknownTarget t)⟩

/-- Legacy `run` (workflow.go lines 61-81), an unbounded loop embedded with
fuel: `none` means the loop is still going after `fuel` iterations,
`some none` is success, `some (some e)` is the error returned.  Also
accumulates every transition request issued. -/
def runL (env : LegacyEnv) : LegacyWF → Nat → Nat → Option (Option Err) × List Target
  | _, _, 0 => (none, [])
  | w, i, fuel + 1 =>
      let r := nextL env w i
      match r.err with
      | some e => (some (some e), r.issued)
      | none =>
          if r.done then (some none, r.issued)
          else
            let rest := runL env r.wf (i + 1) fuel
            (rest.1, r.issued ++ rest.2)

/-- The opts constructed by `provisionWorkflow.changeProvisionState`
(workflow.go lines 842-860) from the payload of the new workflow; the same
shape as the legacy builder, written at its own source site. -/
def buildProvisionStateOptsW (cd : Option ConfigDrive)
    (ds : Option (List DeployStep)) (cs : Option (List CleanStep))
    (t : Target) : ProvisionStateOpts :=
  let opts : ProvisionStateOpts := { target := t }
  match t with
  | .active =>
      { opts with
        configDrive := cd,
        deploySteps := if ds.isSome then ds else opts.deploySteps }
  | .clean =>
      { opts with
        cleanSteps :=
          match cs with
          | some l => some l
          | none => some [] }
  | _ => opts

/-- A node that reports "deploy failed" on every poll; the API always
accepts requests. -/
def deployFailEnv : LegacyEnv :=
  ⟨fun _ => some .deployFail, fun _ _ => .ok, fun _ => none⟩

/-- A run whose very first poll fails to fetch the node; every later poll
would have observed "enroll". -/
def oneFetchFailEnv : LegacyEnv :=
  ⟨fun i => if i = 0 then none else some .enroll, fun _ _ => .ok, fun _ => none⟩

/-- A node that reports "enroll" on every poll. -/
def enrollEnv : LegacyEnv :=
  ⟨fun _ => some .enroll, fun _ _ => .ok, fun _ => none⟩

/-- execute-environment: every tick observes "verifying" with a working
adapter. -/
def stallEnv : Nat → Tick := fun _ => .observed .verifying true

/-- execute-environment: every tick observes "error" with a working
adapter. -/
def errorEnv : Nat → Tick := fun _ => .observed .error true

/-- execute-environment of the multi-hop scenario: the node is observed in
enroll, then manageable, then available, then active. -/
def multiHopEnv : Nat → Tick := fun n =>
  match n with
  | 0 => .observed .enroll true
  | 1 => .observed .manageable true
  | 2 => .observed .available true
  | _ => .observed .active true

/-- API responses: a non-conflict error on the first attempt, success on
every later attempt. -/
def rejectThenOk : Nat → ApiResp := fun n => if n = 0 then .reject else .ok

/-- API responses: conflict on the first two attempts, success on the
third. -/
def conflictTwiceThenOk : Nat → ApiResp := fun n => if n < 2 then .conflict else .ok

/-- The execute loop never performs more iterations than its fuel. -/
theorem execTicks_le_fuel (t : Target) (env : Nat → Tick) :
    ∀ (fuel i : Nat), execTicks t env i fuel ≤ fuel := by
  intro fuel
  induction fuel with
  | zero => intro i; simp [execTicks]
  | succ n ih =>
      intro i
      unfold execTicks
      cases h : (execStep t (env i)).1 with
      | none =>
          have := ih (i + 1)
          simp only []
          omega
      | some r => simp only []; omega

/-- If every tick in the window keeps the loop going, the attempt budget
runs out. -/
theorem execLoop_stall_exhausts (t : Target) (env : Nat → Tick) :
    ∀ (fuel i : Nat),
      (∀ n, i ≤ n → n < i + fuel → (execStep t (env n)).1 = none) →
      (execLoop t env i fuel).1 = .err .attemptsExhausted := by
  intro fuel
  induction fuel with
  | zero => intro i _; simp [execLoop]
  | succ m ih =>
      intro i h
      have h0 : (execStep t (env i)).1 = none := h i le_rfl (by omega)
      rcases he : execStep t (env i) with ⟨a, b⟩
      rw [he] at h0
      subst h0
      unfold execLoop
      rw [he]
      exact ih (i + 1) fun n hn1 hn2 => h n (by omega) (by omega)

/-- On a constant tick that neither finishes the run nor issues a request,
the execute loop spins to budget exhaustion having issued nothing. -/
theorem execLoop_const_stall (t : Target) (tk : Tick)
    (h : execStep t tk = (none, none)) :
    ∀ (fuel i : Nat),
      execLoop t (fun _ => tk) i fuel = (.err .attemptsExhausted, []) := by
  intro fuel
  induction fuel with
  | zero => intro i; rfl
  | succ m ih =>
      intro i
      unfold execLoop
      rw [h]
      simp [ih (i + 1)]

/-- Claim C1: whenever `determineNextTarget` returns an action, that action
is legal per `stateTransitions` from the current state.  This FAILS on the
code: toward `active` the planner returns `provide` from `manageable`, and
toward `inspect` it returns `manage` from `available`, yet the table has no
(manageable, provide) and no (available, manage) entry; the first hop from
`enroll` is, by contrast, in the table. -/
theorem c1_planner_hop_not_in_table :
    determineNextTarget .active .manageable = some .provide
      ∧ isValidTransition .manageable .provide = false
      ∧ determineNextTarget .provide .manageable = some .provide
      ∧ determineNextTarget .inspect .available = some .manage
      ∧ isValidTransition .available .manage = false
      ∧ determineNextTarget .active .enroll = some .manage
      ∧ isValidTransition .enroll .manage = true := by
  decide

/-- Claim C2: from "deploy failed" with target active or with target
provide (the available outcome), the legacy workflow issues the `deleted`
recovery action (and nothing else) while decrementing the retry budget
(toward provide the step also reports done, so that run ends right after
the recovery hop); with the budget at zero the same observation is, for
either target, a fatal error with no action issued; starting from the
initial budget of 3, a node stuck in "deploy failed" with target active
yields exactly three `deleted` recovery requests and then the fatal
error, and with target provide exactly one `deleted` request, so recovery
never loops indefinitely. -/
theorem c2_deploy_failed_recovery_bounded :
    (∀ (env : LegacyEnv) (w : LegacyWF) (i : Nat),
      w.target = .active → env.fetch i = some .deployFail → w.retryNumber ≠ 0 →
      (changeProvisionStateAttempts (env.api w.ncalls)).1 = true →
      nextL env w i =
        ⟨{ w with
             node := .deployFail,
             retryNumber := w.retryNumber - 1,
             operationStarted := false,
             ncalls := w.ncalls + 1 },
          [.deleted], false, none⟩)
    ∧ (∀ (env : LegacyEnv) (w : LegacyWF) (i : Nat),
      w.target = .provide → env.fetch i = some .deployFail → w.retryNumber ≠ 0 →
      (changeProvisionStateAttempts (env.api w.ncalls)).1 = true →
      nextL env w i =
        ⟨{ w with
             node := .deployFail,
             retryNumber := w.retryNumber - 1,
             operationStarted := false,
             ncalls := w.ncalls + 1 },
          [.deleted], true, none⟩)
    ∧ (∀ (env : LegacyEnv) (w : LegacyWF) (i : Nat),
      (w.target = .active ∨ w.target = .provide) →
      env.fetch i = some .deployFail → w.retryNumber = 0 →
      nextL env w i = ⟨{ w with node := .deployFail }, [], true, some (.stuck .deployFail)⟩)
    ∧ runL deployFailEnv (initialWorkflow .active none none none) 0 10 =
        (some (some (.stuck .deployFail)), [.deleted, .deleted, .deleted])
    ∧ runL deployFailEnv (initialWorkflow .provide none none none) 0 10 =
        (some none, [.deleted]) := by
  refine ⟨?_, ?_, ?_, rfl, rfl⟩
  · intro env w i ht hf hr hok
    obtain ⟨tg, nd, rn, os, wt, cd, ds, cs, nc, nn⟩ := w
    simp only [] at ht hr hok ⊢
    subst ht
    simp [nextL, hf, toActive, toAvailable, maybeRetry, hr,
      changeProvisionStateL, buildProvisionStateOpts, hok]
  · intro env w i ht hf hr hok
    obtain ⟨tg, nd, rn, os, wt, cd, ds, cs, nc, nn⟩ := w
    simp only [] at ht hr hok ⊢
    subst ht
    simp [nextL, hf, toAvailable, maybeRetry, hr,
      changeProvisionStateL, buildProvisionStateOpts, hok]
  · intro env w i ht hf hr
    obtain ⟨tg, nd, rn, os, wt, cd, ds, cs, nc, nn⟩ := w
    simp only [] at ht hr ⊢
    rcases ht with ht | ht <;> subst ht <;> subst hr <;>
      simp [nextL, hf, toActive, toAvailable, maybeRetry]

/-- Witness for C2 at concrete workflows: with the full budget the step
from "deploy failed" issues `deleted` and decrements the budget toward
both active and provide; with the budget at zero it is, for the provide
target, the fatal stuck error. -/
theorem c2_deploy_failed_recovery_bounded_witness :
    nextL deployFailEnv (initialWorkflow .active none none none) 0 =
      ⟨{ initialWorkflow .active none none none with
           node := .deployFail,
           retryNumber := 2,
           operationStarted := false,
           ncalls := 1 },
        [.deleted], false, none⟩
    ∧ nextL deployFailEnv (initialWorkflow .provide none none none) 0 =
      ⟨{ initialWorkflow .provide none none none with
           node := .deployFail,
           retryNumber := 2,
           operationStarted := false,
           ncalls := 1 },
        [.deleted], true, none⟩
    ∧ nextL deployFailEnv
        { initialWorkflow .provide none none none with retryNumber := 0 } 0 =
      ⟨{ initialWorkflow .provide none none none with
           node := .deployFail,
           retryNumber := 0 },
        [], true, some (.stuck .deployFail)⟩ := by
  refine ⟨?_, ?_, ?_⟩
  · exact c2_deploy_failed_recovery_bounded.1 deployFailEnv
      (initialWorkflow .active none none none) 0 rfl rfl (by decide) rfl
  · exact c2_deploy_failed_recovery_bounded.2.1 deployFailEnv
      (initialWorkflow .provide none none none) 0 rfl rfl (by decide) rfl
  · exact c2_deploy_failed_recovery_bounded.2.2.1 deployFailEnv
      { initialWorkflow .provide none none none with retryNumber := 0 } 0
      (Or.inr rfl) rfl rfl

/-- Counterexample to claim C3: with current state "error" and target
inspect, takeNextAction does produce the no-valid-transition error without
issuing any request, but execute does NOT return it: since "error" is not
in the isTerminalFailureState list, the error is swallowed and the run keeps
polling until the attempt budget yields the attempts-exhausted error. -/
theorem c3_error_inspect_error_swallowed :
    takeNextAction .inspect .error true =
      (some (.noValidTransition .error .inspect), none)
    ∧ execStep .inspect (.observed .error true) = (none, none)
    ∧ executeM .inspect errorEnv = (.err .attemptsExhausted, []) := by
  refine ⟨rfl, rfl, ?_⟩
  exact execLoop_const_stall .inspect (.observed .error true) rfl 1000 0

/-- Claim C3 as amended: when the planner has no applicable rule (state not
at goal, not transient, no derived action), takeNextAction returns the
fatal no-valid-transition error and no transition request is issued; but
execute propagates it only from terminal-failure states — from any other
such state (e.g. "error") the error is logged and swallowed, and the run
keeps polling until the attempt budget produces the attempts-exhausted
error, with no transition request ever issued. -/
theorem c3_no_valid_transition_swallowed_unless_terminal :
    ∀ (t : Target) (s : State) (b : Bool),
      (checkCompletion t s).1 = false →
      isTransientState s = false →
      determineNextTarget t s = none →
      takeNextAction t s b = (some (.noValidTransition s t), none)
      ∧ execStep t (.observed s b) = (none, none)
      ∧ executeM t (fun _ => .observed s b) = (.err .attemptsExhausted, []) := by
  intro t s b hdone htrans hplan
  have hterm : isTerminalFailureState s = false := by
    by_contra hc
    have hT : isTerminalFailureState s = true := by
      cases h : isTerminalFailureState s with
      | true => rfl
      | false => exact absurd h hc
    have : (checkCompletion t s).1 = true := by
      simp [checkCompletion, hT]
    rw [this] at hdone
    exact Bool.noConfusion hdone
  have hact : takeNextAction t s b = (some (.noValidTransition s t), none) := by
    simp [takeNextAction, htrans, hplan]
  have hstep : execStep t (.observed s b) = (none, none) := by
    rcases hcc : checkCompletion t s with ⟨d, e⟩
    rw [hcc] at hdone
    simp only [] at hdone
    subst hdone
    simp [execStep, hcc, hact, hterm]
  exact ⟨hact, hstep, execLoop_const_stall t (.observed s b) hstep 1000 0⟩

/-- Witness for the amended C3 at target clean, state "error". -/
theorem c3_no_valid_transition_swallowed_unless_terminal_witness :
    (checkCompletion .clean .error).1 = false
    ∧ isTransientState .error = false
    ∧ determineNextTarget .clean .error = none
    ∧ takeNextAction .clean .error true =
        (some (.noValidTransition .error .clean), none)
    ∧ executeM .clean (fun _ => .observed .error true) =
        (.err .attemptsExhausted, []) := by
  have h := c3_no_valid_transition_swallowed_unless_terminal .clean .error true
    (by decide) (by decide) (by decide)
  exact ⟨by decide, by decide, by decide, h.1, h.2.2⟩

/-- Counterexample to claim C4: a non-conflict error on the first attempt
is NOT surfaced immediately — the legacy changeProvisionState loop simply
falls through to the next attempt, so the request is retried (a second API
call is made) and the call succeeds overall. -/
theorem c4_non_conflict_error_retried :
    changeProvisionStateAttempts rejectThenOk = (true, [], 2)
    ∧ (changeProvisionStateAttempts rejectThenOk).2.2 ≠ 1 := by
  constructor
  · rfl
  · decide

/-- Claim C4 as amended: the legacy changeProvisionState makes up to 5
attempts; only a conflict response sleeps (current interval, starting at
5s and doubling); any other error is retried immediately with no sleep and
no interval change; conflict on the first two attempts and success on the
third yields sleeps of 5s and 10s in 3 calls; five straight conflicts
exhaust the budget with sleeps 5,10,20,40,80 and surface a failure. -/
theorem c4_conflict_backoff_other_errors_retried_immediately :
    (∀ (resp : Nat → ApiResp) (j fuel interval : Nat) (sleeps : List Nat) (calls : Nat),
      resp j = .conflict →
      cpsLoop resp j (fuel + 1) interval sleeps calls =
        cpsLoop resp (j + 1) fuel (interval * 2) (interval :: sleeps) (calls + 1))
    ∧ (∀ (resp : Nat → ApiResp) (j fuel interval : Nat) (sleeps : List Nat) (calls : Nat),
      resp j = .reject →
      cpsLoop resp j (fuel + 1) interval sleeps calls =
        cpsLoop resp (j + 1) fuel interval sleeps (calls + 1))
    ∧ changeProvisionStateAttempts conflictTwiceThenOk = (true, [5, 10], 3)
    ∧ changeProvisionStateAttempts (fun _ => .conflict) =
        (false, [5, 10, 20, 40, 80], 5) := by
  refine ⟨?_, ?_, rfl, rfl⟩
  · intro resp j fuel interval sleeps calls h
    conv_lhs => unfold cpsLoop
    rw [h]
  · intro resp j fuel interval sleeps calls h
    conv_lhs => unfold cpsLoop
    rw [h]

/-- Witness for the amended C4: one step of the attempt loop on a conflict
and on a non-conflict error, at concrete arguments. -/
theorem c4_conflict_backoff_other_errors_retried_immediately_witness :
    cpsLoop (fun _ => .conflict) 0 5 5 [] 0 =
      cpsLoop (fun _ => .conflict) 1 4 10 [5] 1
    ∧ cpsLoop rejectThenOk 0 5 5 [] 0 = cpsLoop rejectThenOk 1 4 5 [] 1 := by
  constructor
  · exact c4_conflict_backoff_other_errors_retried_immediately.1
      (fun _ => .conflict) 0 4 5 [] 0 rfl
  · exact c4_conflict_backoff_other_errors_retried_immediately.2.1
      rejectThenOk 0 4 5 [] 0 rfl

/-- Claim C5: the execute loop is bounded — it performs at most 1000
iterations, its result is success or one of the enumerated errors, and if
every tick within the budget merely continues (no completion, no fatal
classification, no cancellation or timer firing) the result is the
attempts-exhausted timeout error. -/
theorem c5_execute_loop_bounded :
    ∀ (t : Target) (env : Nat → Tick),
      execTicks t env 0 1000 ≤ 1000
      ∧ ((executeM t env).1 = .ok ∨ ∃ e, (executeM t env).1 = .err e)
      ∧ ((∀ n, n < 1000 → (execStep t (env n)).1 = none) →
          (executeM t env).1 = .err .attemptsExhausted) := by
  intro t env
  refine ⟨execTicks_le_fuel t env 1000 0, ?_, ?_⟩
  · cases h : (executeM t env).1 with
    | ok => exact Or.inl rfl
    | err e => exact Or.inr ⟨e, rfl⟩
  · intro h
    exact execLoop_stall_exhausts t env 1000 0 fun n hn1 hn2 => h n (by omega)

/-- Witness for C5: with target manage and a node that reports "verifying"
forever, every tick continues and execute ends in the attempts-exhausted
error. -/
theorem c5_execute_loop_bounded_witness :
    (∀ n, n < 1000 → (execStep .manage (stallEnv n)).1 = none)
    ∧ (executeM .manage stallEnv).1 = .err .attemptsExhausted := by
  have h : ∀ n, n < 1000 → (execStep .manage (stallEnv n)).1 = none :=
    fun n _ => rfl
  exact ⟨h, (c5_execute_loop_bounded .manage stallEnv).2.2 h⟩

/-- Counterexample to claim C6: in the legacy workflow a single failed poll
aborts the whole run — with the fetch failing only on the very first tick
(and "enroll" observable ever after), the run with target deleted returns
the fetch error, whereas with all fetches succeeding the same run returns
success on its first tick. -/
theorem c6_legacy_single_fetch_failure_aborts :
    runL oneFetchFailEnv (initialWorkflow .deleted none none none) 0 5 =
      (some (some .fetchFailed), [])
    ∧ runL enrollEnv (initialWorkflow .deleted none none none) 0 5 =
      (some none, []) := by
  exact ⟨rfl, rfl⟩

/-- Claim C6 as amended: in provisionWorkflow.execute a failed fetch of the
node state issues nothing and the loop continues with the next tick; in
the legacy provisionStateWorkflow, by contrast, a failed reload makes
`next` return the error, aborting the run. -/
theorem c6_fetch_failure_continue_in_execute_abort_in_legacy :
    (∀ t : Target, execStep t .fetchFail = (none, none))
    ∧ (∀ (t : Target) (env : Nat → Tick) (i fuel : Nat),
        env i = .fetchFail →
        execLoop t env i (fuel + 1) = execLoop t env (i + 1) fuel)
    ∧ (∀ (env : LegacyEnv) (w : LegacyWF) (i : Nat),
        env.fetch i = none →
        nextL env w i = ⟨w, [], true, some .fetchFailed⟩) := by
  refine ⟨fun t => rfl, ?_, ?_⟩
  · intro t env i fuel h
    conv_lhs => unfold execLoop
    rw [h]
    simp [execStep]
  · intro env w i h
    simp [nextL, h]

/-- Witness for the amended C6 at a concrete environment: tick 0 of an
execute run whose first fetch fails proceeds to tick 1, and the legacy
`next` aborts on it. -/
theorem c6_fetch_failure_continue_in_execute_abort_in_legacy_witness :
    execLoop .deleted (fun i => if i = 0 then .fetchFail else .observed .enroll true) 0 1000 =
      execLoop .deleted (fun i => if i = 0 then .fetchFail else .observed .enroll true) 1 999
    ∧ nextL oneFetchFailEnv (initialWorkflow .deleted none none none) 0 =
        ⟨initialWorkflow .deleted none none none, [], true, some .fetchFailed⟩ := by
  constructor
  · exact c6_fetch_failure_continue_in_execute_abort_in_legacy.2.1 .deleted
      (fun i => if i = 0 then .fetchFail else .observed .enroll true) 0 999 rfl
  · exact c6_fetch_failure_continue_in_execute_abort_in_legacy.2.2
      oneFetchFailEnv (initialWorkflow .deleted none none none) 0 rfl

/-- Claim C7: when the first observed state already satisfies the completion
test of the target, execute returns success having issued no transition
request; likewise the legacy workflow step reports done with no request
when the node is already active (target active) or already manageable
(target manage). -/
theorem c7_goal_state_no_requests :
    (∀ (t : Target) (s : State) (b : Bool) (env : Nat → Tick),
      checkCompletion t s = (true, none) →
      env 0 = .observed s b →
      executeM t env = (.ok, []))
    ∧ (∀ (env : LegacyEnv) (w : LegacyWF) (i : Nat),
      w.target = .active → env.fetch i = some .active →
      nextL env w i = ⟨{ w with node := .active }, [], true, none⟩)
    ∧ (∀ (env : LegacyEnv) (w : LegacyWF) (i : Nat),
      w.target = .manage → env.fetch i = some .manageable →
      nextL env w i = ⟨{ w with node := .manageable }, [], true, none⟩) := by
  refine ⟨?_, ?_, ?_⟩
  · intro t s b env hc he
    have h1000 : (1000 : Nat) = 999 + 1 := rfl
    unfold executeM
    rw [h1000]
    conv_lhs => unfold execLoop
    rw [he]
    simp [execStep, hc]
  · intro env w i ht hf
    obtain ⟨tg, nd, rn, os, wt, cd, ds, cs, nc, nn⟩ := w
    simp only [] at ht
    subst ht
    simp [nextL, hf, toActive]
  · intro env w i ht hf
    obtain ⟨tg, nd, rn, os, wt, cd, ds, cs, nc, nn⟩ := w
    simp only [] at ht
    subst ht
    simp [nextL, hf, toManageable]

/-- Witness for C7: target active with the node observed active issues
nothing and succeeds, in both workflows. -/
theorem c7_goal_state_no_requests_witness :
    executeM .active (fun _ => .observed .active true) = (.ok, [])
    ∧ nextL ⟨fun _ => some .active, fun _ _ => .ok, fun _ => none⟩
        (initialWorkflow .active none none none) 0 =
      ⟨{ initialWorkflow .active none none none with node := .active },
        [], true, none⟩ := by
  constructor
  · exact c7_goal_state_no_requests.1 .active .active true
      (fun _ => .observed .active true) (by decide) rfl
  · exact c7_goal_state_no_requests.2.1
      ⟨fun _ => some .active, fun _ _ => .ok, fun _ => none⟩
      (initialWorkflow .active none none none) 0 rfl rfl

/-- Claim C8: toward target active the first hop of the planner is manage from
enroll, provide from manageable and active from available; a run observing
enroll, manageable, available and then active issues exactly the sequence
manage, provide, active and succeeds. -/
theorem c8_active_multi_hop_sequence :
    determineNextTarget .active .enroll = some .manage
    ∧ determineNextTarget .active .manageable = some .provide
    ∧ determineNextTarget .active .available = some .active
    ∧ executeM .active multiHopEnv = (.ok, [.manage, .provide, .active]) := by
  exact ⟨rfl, rfl, rfl, rfl⟩

/-- Claim C9: the request payload depends only on the issued action — in
both opts builders, the active action carries the config drive and the
supplied deploy steps, the clean action carries the supplied clean steps
or an empty list, and every other action sets only the target. -/
theorem c9_payload_depends_only_on_action :
    ∀ (w : LegacyWF) (t : Target) (cd : Option ConfigDrive)
      (ds : Option (List DeployStep)) (cs : Option (List CleanStep)),
      buildProvisionStateOpts w .active =
        { target := .active, configDrive := w.configDrive,
          deploySteps := w.deploySteps, cleanSteps := none }
      ∧ buildProvisionStateOpts w .clean =
        { target := .clean, configDrive := none, deploySteps := none,
          cleanSteps := some (w.cleanSteps.getD []) }
      ∧ (t ≠ .active → t ≠ .clean → buildProvisionStateOpts w t = { target := t })
      ∧ buildProvisionStateOptsW cd ds cs .active =
        { target := .active, configDrive := cd, deploySteps := ds,
          cleanSteps := none }
      ∧ buildProvisionStateOptsW cd ds cs .clean =
        { target := .clean, configDrive := none, deploySteps := none,
          cleanSteps := some (cs.getD []) }
      ∧ (t ≠ .active → t ≠ .clean →
          buildProvisionStateOptsW cd ds cs t = { target := t }) := by
  intro w t cd ds cs
  refine ⟨?_, ?_, ?_, ?_, ?_, ?_⟩
  · cases hds : w.deploySteps <;>
      simp [buildProvisionStateOpts, hds]
  · cases hcs : w.cleanSteps <;>
      simp [buildProvisionStateOpts, hcs]
  · intro h1 h2
    cases t <;> simp [buildProvisionStateOpts] <;> first | rfl | simp at h1 h2
  · cases ds <;> simp [buildProvisionStateOptsW]
  · cases cs <;> simp [buildProvisionStateOptsW]
  · intro h1 h2
    cases t <;> simp [buildProvisionStateOptsW] <;> first | rfl | simp at h1 h2

/-- Witness for C9 at concrete payloads and the deleted action. -/
theorem c9_payload_depends_only_on_action_witness :
    buildProvisionStateOpts
        (initialWorkflow .active (some 7) (some [⟨1⟩]) (some [⟨2⟩])) .active =
      { target := .active, configDrive := some 7, deploySteps := some [⟨1⟩],
        cleanSteps := none }
    ∧ buildProvisionStateOpts
        (initialWorkflow .clean none none none) .clean =
      { target := .clean, configDrive := none, deploySteps := none,
        cleanSteps := some [] }
    ∧ buildProvisionStateOpts
        (initialWorkflow .deleted (some 7) (some [⟨1⟩]) (some [⟨2⟩])) .deleted =
      { target := .deleted }
    ∧ buildProvisionStateOptsW (some 7) (some [⟨1⟩]) (some [⟨2⟩]) .deleted =
      { target := .deleted } := by
  have h := c9_payload_depends_only_on_action
    (initialWorkflow .deleted (some 7) (some [⟨1⟩]) (some [⟨2⟩])) .deleted
    (some 7) (some [⟨1⟩]) (some [⟨2⟩])
  have h1 := c9_payload_depends_only_on_action
    (initialWorkflow .active (some 7) (some [⟨1⟩]) (some [⟨2⟩])) .deleted
    (some 7) (some [⟨1⟩]) (some [⟨2⟩])
  have h2 := c9_payload_depends_only_on_action
    (initialWorkflow .clean none none none) .deleted none none none
  exact ⟨h1.1, h2.2.1, h.2.2.1 (by decide) (by decide),
    h.2.2.2.2.2 (by decide) (by decide)⟩

/-- Claim C10: with target deleted and the node fetched in enroll,
manageable or available, the legacy workflow step reports done with no
error and no transition request, and the whole legacy run returns success
immediately having issued nothing. -/
theorem c10_delete_unprovisioned_noop :
    (∀ (env : LegacyEnv) (w : LegacyWF) (i : Nat) (s : State),
      w.target = .deleted → env.fetch i = some s →
      (s = .enroll ∨ s = .manageable ∨ s = .available) →
      nextL env w i = ⟨{ w with node := s }, [], true, none⟩)
    ∧ (∀ (env : LegacyEnv) (s : State) (cd : Option ConfigDrive)
        (ds : Option (List DeployStep)) (cs : Option (List CleanStep)) (fuel : Nat),
      env.fetch 0 = some s →
      (s = .enroll ∨ s = .manageable ∨ s = .available) →
      runL env (initialWorkflow .deleted cd ds cs) 0 (fuel + 1) = (some none, [])) := by
  have hstep : ∀ (env : LegacyEnv) (w : LegacyWF) (i : Nat) (s : State),
      w.target = .deleted → env.fetch i = some s →
      (s = .enroll ∨ s = .manageable ∨ s = .available) →
      nextL env w i = ⟨{ w with node := s }, [], true, none⟩ := by
    intro env w i s ht hf hs
    obtain ⟨tg, nd, rn, os, wt, cd, ds, cs, nc, nn⟩ := w
    simp only [] at ht
    subst ht
    rcases hs with h | h | h <;> subst h <;> simp [nextL, hf, toDeleted]
  refine ⟨hstep, ?_⟩
  intro env s cd ds cs fuel hf hs
  have h := hstep env (initialWorkflow .deleted cd ds cs) 0 s rfl hf hs
  unfold runL
  rw [h]
  simp

/-- Witness for C10: a node fetched in enroll with target deleted is an
immediate no-op success of the legacy run. -/
theorem c10_delete_unprovisioned_noop_witness :
    nextL enrollEnv (initialWorkflow .deleted none none none) 0 =
      ⟨{ initialWorkflow .deleted none none none with node := .enroll },
        [], true, none⟩
    ∧ runL enrollEnv (initialWorkflow .deleted none none none) 0 7 =
      (some none, []) := by
  constructor
  · exact c10_delete_unprovisioned_noop.1 enrollEnv
      (initialWorkflow .deleted none none none) 0 .enroll rfl rfl (Or.inl rfl)
  · exact c10_delete_unprovisioned_noop.2 enrollEnv .enroll none none none 6
      rfl (Or.inl rfl)
